import Mathlib

/-!
Verification development for the compile coordination and worker-messaging
subsystem of a Typst editor (TypstCompilerService.ts, typst.worker.ts,
helpers.ts).  The TypeScript source is embedded shallowly: each stateful
component becomes explicit state passing over a Lean state structure, and
listener callbacks, object-URL creation/revocation and worker replies are
recorded as explicit events so that ordering and side-effect claims can be
stated.
-/

namespace TypstEditor

/-! ## Coordinator data model (TypstCompilerService.ts) -/

/-- CompileStatus from TypstCompilerService.ts: 'idle' | 'compiling' | 'done' | 'error'. -/
inductive CompileStatus
  | idle
  | compiling
  | done
  | error
deriving DecidableEq, Repr

/-- CompileResult from TypstCompilerService.ts.  Pdf bytes are modelled as
lists of naturals, object URLs as natural-number handles. -/
structure CompileResult where
  success : Bool
  pdf : Option (List Nat) := none
  pdfUrl : Option Nat := none
  error : Option String := none
  status : CompileStatus
deriving DecidableEq, Repr

/-- Observable side effects of the Coordinator: listener callbacks
(identified by the listener's position-independent identity, a Nat) and
object-URL lifecycle operations (URL.revokeObjectURL / URL.createObjectURL). -/
inductive Event
  | statusChange (target : Nat) (s : CompileStatus)
  | successNotify (target : Nat) (pdf : List Nat) (url : Nat)
  | errorNotify (target : Nat) (msg : String)
  | revokeUrl (u : Nat)
  | createUrl (u : Nat)
deriving DecidableEq, Repr

/-- The mutable fields of a TypstCompilerService instance.  `listeners` is the
listener array (listeners identified by Nat, duplicates allowed, order as in
the array); `liveUrls` models the set of object URLs currently allocated by
this service and not yet revoked; `nextUrl` is a fresh-handle generator
modelling URL.createObjectURL returning a fresh URL. -/
structure CoordState where
  compileSeq : Nat
  currentPdfUrl : Option Nat
  listeners : List Nat
  liveUrls : List Nat
  nextUrl : Nat
deriving DecidableEq, Repr

/-- The reply the Coordinator's awaited `this.client.compilePdf(code, {})`
settles with: resolution with pdf bytes, or rejection with an error message. -/
inductive WorkerReply
  | ok (pdf : List Nat)
  | err (msg : String)
deriving DecidableEq, Repr

/-- notifyStatusChange: `this.listeners.forEach(l => l.onStatusChange?.(status))`. -/
def notifyStatusChange (st : CoordState) (s : CompileStatus) : List Event :=
  st.listeners.map (fun t => Event.statusChange t s)

/-- notifySuccess: `this.listeners.forEach(l => l.onSuccess?.(pdf, pdfUrl))`. -/
def notifySuccess (st : CoordState) (pdf : List Nat) (url : Nat) : List Event :=
  st.listeners.map (fun t => Event.successNotify t pdf url)

/-- notifyError: `this.listeners.forEach(l => l.onError?.(error))`. -/
def notifyError (st : CoordState) (msg : String) : List Event :=
  st.listeners.map (fun t => Event.errorNotify t msg)

/-- The synchronous head of `compile()` (lines 46-48): `const seq =
++this.compileSeq` followed by `this.notifyStatusChange('compiling')`.
Returns the captured sequence number, the updated state and the events. -/
def startCompile (st : CoordState) : Nat × CoordState × List Event :=
  let seq := st.compileSeq + 1
  let st1 := { st with compileSeq := seq }
  (seq, st1, notifyStatusChange st1 CompileStatus.compiling)

/-- The reply-handling tail of `compile()` (lines 53-98), entered when the
awaited `client.compilePdf` settles with `r` while the Coordinator is in
state `st`; `seq` is the sequence number captured at call start.  Both the
success (try) branch and the failure (catch) branch first re-check
`seq !== this.compileSeq` and return the idle outcome with no side effects
when stale. -/
def handleReply (seq : Nat) (st : CoordState) (r : WorkerReply) :
    CoordState × CompileResult × List Event :=
  if seq ≠ st.compileSeq then
    (st, { success := false, status := CompileStatus.idle }, [])
  else
    match r with
    | WorkerReply.ok pdf =>
        -- Revoke old PDF URL (lines 62-64)
        let revokeEvs := match st.currentPdfUrl with
          | some u => [Event.revokeUrl u]
          | none => []
        let st1 := { st with liveUrls := match st.currentPdfUrl with
                        | some u => st.liveUrls.erase u
                        | none => st.liveUrls }
        -- Create new blob URL (lines 67-69)
        let u := st1.nextUrl
        let st2 := { st1 with
                      liveUrls := st1.liveUrls ++ [u]
                      nextUrl := u + 1
                      currentPdfUrl := some u }
        let evs := revokeEvs ++ [Event.createUrl u] ++
          notifySuccess st2 pdf u ++ notifyStatusChange st2 CompileStatus.done
        (st2,
         { success := true, pdf := some pdf, pdfUrl := some u,
           status := CompileStatus.done },
         evs)
    | WorkerReply.err msg =>
        (st,
         { success := false, error := some msg, status := CompileStatus.error },
         notifyError st msg ++ notifyStatusChange st CompileStatus.error)

/-- dispose() (lines 111-118): revoke the current URL (if any), null it, and
clear the listener array.  (`this.client.dispose()` is modelled at the Bridge
level separately.) -/
def dispose (st : CoordState) : CoordState × List Event :=
  match st.currentPdfUrl with
  | some u =>
      ({ st with liveUrls := st.liveUrls.erase u
                 currentPdfUrl := none
                 listeners := [] },
       [Event.revokeUrl u])
  | none => ({ st with listeners := [] }, [])

/-- Issuing `n` compile() calls back to back without awaiting: each performs
its synchronous head, bumping the counter.  Returns the captured sequence
numbers in call order and the state after all heads have run. -/
def startMany : Nat → CoordState → List Nat × CoordState
  | 0, st => ([], st)
  | n + 1, st =>
      let (seq, st1, _) := startCompile st
      let (seqs, st2) := startMany n st1
      (seq :: seqs, st2)

/-- A fresh TypstCompilerService. -/
def initCoord : CoordState :=
  { compileSeq := 0, currentPdfUrl := none, listeners := [], liveUrls := [],
    nextUrl := 0 }

/-! ## Listener registration (TypstCompilerService.addListener, lines 32-40) -/

/-- addListener pushes the listener onto the array. -/
def addListener (l : Nat) (ls : List Nat) : List Nat := ls ++ [l]

/-- Array.prototype.indexOf: index of the first occurrence, if any. -/
def indexOf (l : Nat) : List Nat → Option Nat
  | [] => none
  | x :: xs => if x = l then some 0 else (indexOf l xs).map (· + 1)

/-- The unsubscribe token returned by addListener: `const index =
this.listeners.indexOf(listener); if (index > -1) this.listeners.splice(index, 1)`. -/
def unsubscribe (l : Nat) (ls : List Nat) : List Nat :=
  match indexOf l ls with
  | some i => ls.eraseIdx i
  | none => ls

/-- The listener id an event is delivered to, when it is a callback event. -/
def Event.target? : Event → Option Nat
  | Event.statusChange t _ => some t
  | Event.successNotify t _ _ => some t
  | Event.errorNotify t _ => some t
  | Event.revokeUrl _ => none
  | Event.createUrl _ => none

/-! ## Bridge (TypstWorkerClient) -/

/-- Modelled from the spec: the Bridge (TypstWorkerClient, typstClient.ts) is
not among the sources; only its caller TypstCompilerService.ts is.  Spec §4.3
specifies `dispose()`: all still-pending entries are rejected with a
"client disposed" failure and the underlying worker execution context is
terminated.  Accordingly an invocation made on a disposed Bridge settles as a
rejection carrying that failure instead of producing a render result. -/
structure BridgeState where
  disposed : Bool
deriving DecidableEq, Repr

/-- Modelled from the spec: `invoke` on a live Bridge forwards the worker's
reply `r`; on a disposed Bridge it rejects with the "client disposed" failure. -/
def bridgeInvoke (b : BridgeState) (r : WorkerReply) : WorkerReply :=
  if b.disposed then WorkerReply.err "client disposed" else r

/-- One whole compile() call with no interleaved calls: the synchronous head,
then the Bridge invocation settling with reply `r`, then the reply tail. -/
def runCompile (b : BridgeState) (st : CoordState) (r : WorkerReply) :
    CoordState × CompileResult × List Event :=
  let (seq, st1, ev1) := startCompile st
  let (st2, res, ev2) := handleReply seq st1 (bridgeInvoke b r)
  (st2, res, ev1 ++ ev2)

/-- Coordinator dispose() including `this.client.dispose()`: the Bridge is
marked disposed, the current URL revoked, the listeners cleared. -/
def disposeAll (b : BridgeState) (st : CoordState) :
    BridgeState × CoordState × List Event :=
  let (st1, evs) := dispose st
  ({ b with disposed := true }, st1, evs)

/-! ## Render worker (typst.worker.ts) -/

/-- The two resource sets a compiler instance can be constructed with:
CORE_FONTS alone, or CORE_FONTS ++ EMOJI_FONTS. -/
inductive FontSet
  | core
  | coreAndEmoji
deriving DecidableEq, Repr

/-- The worker's module-level mutable state: `compilerPromise` (identified by
the resource set the compiler was constructed with) and `emojiLoaded`.
`constructions` logs every call to createCompilerWithFonts, so that
"at most one reconstruction" is observable. -/
structure WorkerState where
  compilerPromise : Option FontSet
  emojiLoaded : Bool
  constructions : List FontSet
deriving DecidableEq, Repr

/-- The worker's initial module state: no compiler, no emoji fonts. -/
def initWorker : WorkerState :=
  { compilerPromise := none, emojiLoaded := false, constructions := [] }

/-- needsEmojiFont's regex `[\uD800-\uDFFF]|[☀-⛿]|[✀-➿]`
over UTF-16 code units: a surrogate unit occurs exactly when the scalar value
is at least 0x10000, and the two BMP ranges are tested directly. -/
def needsEmojiFont (src : List Char) : Bool :=
  src.any fun c =>
    (0x10000 ≤ c.toNat) ||
    (0x2600 ≤ c.toNat && c.toNat ≤ 0x26FF) ||
    (0x2700 ≤ c.toNat && c.toNat ≤ 0x27BF)

/-- getCurrentFonts: `emojiLoaded ? [...CORE_FONTS, ...EMOJI_FONTS] : CORE_FONTS`. -/
def getCurrentFonts (st : WorkerState) : FontSet :=
  if st.emojiLoaded then FontSet.coreAndEmoji else FontSet.core

/-- upgradeCompilerWithEmoji (lines 127-137).  `ctorFails` is the environment
oracle for whether the awaited createCompilerWithFonts call rejects (e.g. a
font fetch failure); the flag `emojiLoaded` is set before that await, and
`compilerPromise` is replaced only after it resolves.  Returns the new state
and whether the function returned normally (false = it threw). -/
def upgradeCompilerWithEmoji (ctorFails : Bool) (st : WorkerState) :
    WorkerState × Bool :=
  if st.emojiLoaded then (st, true)
  else
    let st1 := { st with emojiLoaded := true }
    let st2 := { st1 with constructions := st1.constructions ++ [getCurrentFonts st1] }
    if ctorFails then (st2, false)
    else ({ st2 with compilerPromise := some (getCurrentFonts st1) }, true)

/-- getCompiler (lines 139-144): returns the memoized compilerPromise, or
constructs a CORE_FONTS compiler and installs the promise. -/
def getCompiler (st : WorkerState) : WorkerState × FontSet :=
  match st.compilerPromise with
  | some c => (st, c)
  | none =>
      ({ st with compilerPromise := some FontSet.core
                 constructions := st.constructions ++ [FontSet.core] },
       FontSet.core)

/-- The external renderer's `compiler.compile` result: optional artifact bytes
and optional diagnostics, as returned by the opaque capability. -/
structure RenderResult where
  result : Option (List Nat)
  diagnostics : Option (List String)
deriving DecidableEq, Repr

/-- The environment a compilation unit runs in: whether the upgrade's
compiler construction rejects, its rejection message, and the opaque
renderer capability (a function of the resource set the compiler in use was
constructed with, and the source). -/
structure RenderEnv where
  upgradeCtorFails : Bool
  upgradeCtorErr : String
  render : FontSet → List Char → RenderResult

/-- The fallback failure message used when the renderer reports no
diagnostics (typst.worker.ts line 174). -/
def fallbackMsg : String := "Typst 编译失败（无诊断信息）"

/-- Lines 172-177 of compilePdf: diagnostics default to [] (the `.map(String)`
is the identity since entries are already strings); when no output was
produced, throw the joined diagnostics (or the fallback when the join is the
empty string); otherwise return the pdf bytes and the diagnostics. -/
def finishRender (res : RenderResult) : Except String (List Nat × List String) :=
  let diagnostics := res.diagnostics.getD []
  match res.result with
  | none =>
      Except.error (if String.intercalate "\n" diagnostics = "" then fallbackMsg
        else String.intercalate "\n" diagnostics)
  | some pdf => Except.ok (pdf, diagnostics)

/-- compilePdf (lines 150-178): upgrade when the source needs emoji fonts
(a rejected construction propagates as a thrown error), obtain the compiler,
register the source, invoke the renderer, and finish per finishRender. -/
def compilePdf (env : RenderEnv) (src : List Char) (st : WorkerState) :
    WorkerState × Except String (List Nat × List String) :=
  let up := if needsEmojiFont src then upgradeCompilerWithEmoji env.upgradeCtorFails st
    else (st, true)
  if up.2 = false then (up.1, Except.error env.upgradeCtorErr)
  else
    let gc := getCompiler up.1
    (gc.1, finishRender (env.render gc.2 src))

/-- A compile request message received by the worker. -/
structure WorkerMsg where
  id : String
  mainTypst : List Char
deriving DecidableEq, Repr

/-- A compile-result message posted back by the worker (CompileResponse):
either ok with pdf bytes and diagnostics, or not-ok with an error message
and an empty diagnostics array (the catch branch, lines 203-211). -/
structure WorkerResponse where
  id : String
  ok : Bool
  pdf : Option (List Nat)
  error : Option String
  diagnostics : List String
deriving DecidableEq, Repr

/-- One queued compilation unit (the async closure chained onto compileQueue,
lines 188-212): its try/catch makes it total — it posts exactly one reply
whether compilePdf succeeds or throws. -/
def handleUnit (env : RenderEnv) (m : WorkerMsg) (st : WorkerState) :
    WorkerState × WorkerResponse :=
  match compilePdf env m.mainTypst st with
  | (st1, Except.ok (pdf, diagnostics)) =>
      (st1, { id := m.id, ok := true, pdf := some pdf, error := none,
              diagnostics := diagnostics })
  | (st1, Except.error msg) =>
      (st1, { id := m.id, ok := false, pdf := none, error := some msg,
              diagnostics := [] })

/-- The strictly serial worker queue: `compileQueue = compileQueue.then(unit)`
chains each arriving message's unit after the previous one, and since every
unit is total (try/catch), the chain never rejects and every queued unit
runs, in arrival order. -/
def processQueue (st : WorkerState) :
    List (WorkerMsg × RenderEnv) → WorkerState × List WorkerResponse
  | [] => (st, [])
  | (m, env) :: rest =>
      let (st1, r) := handleUnit env m st
      let (st2, rs) := processQueue st1 rest
      (st2, r :: rs)

/-- The renderer lifecycle states named by the spec. -/
inductive RState
  | uninit
  | base
  | upgraded
deriving DecidableEq, Repr

/-- The lifecycle state the worker's compiler is in, read off the module
state: no compiler yet, a CORE_FONTS compiler, or an upgraded one. -/
def rendererState (st : WorkerState) : RState :=
  match st.compilerPromise with
  | none => RState.uninit
  | some FontSet.core => RState.base
  | some FontSet.coreAndEmoji => RState.upgraded

/-- The transition relation C3 claims: stay put, uninitialized to base, or
base to upgraded. -/
def specStepR (s t : RState) : Prop :=
  s = t ∨ (s = RState.uninit ∧ t = RState.base) ∨
    (s = RState.base ∧ t = RState.upgraded)

/-- The transition relation the code actually follows: additionally a first
request that already needs emoji fonts constructs the upgraded compiler
directly, skipping base. -/
def codeStepR (s t : RState) : Prop :=
  specStepR s t ∨ (s = RState.uninit ∧ t = RState.upgraded)

/-- How many times a compiler has been constructed with the emoji resource
set. -/
def emojiConstructions (st : WorkerState) : Nat :=
  st.constructions.count FontSet.coreAndEmoji

/-- The renderer lifecycle states in their one-directional order. -/
def rankR : RState → Nat
  | RState.uninit => 0
  | RState.base => 1
  | RState.upgraded => 2

/-! ## Coalescer (helpers.ts, debounce) -/

/-- An interaction with the debounced function: invoking it at time `t` with
payload `a`, or calling `cancel()` at time `t`. -/
inductive DebEvent (α : Type)
  | call (t : Nat) (a : α)
  | cancel (t : Nat)
deriving DecidableEq, Repr

/-- The time an interaction happens at. -/
def DebEvent.time : DebEvent α → Nat
  | DebEvent.call t _ => t
  | DebEvent.cancel t => t

/-- Timer semantics: an armed timer `some (ft, a)` fires (invoking the
underlying function with `a` and nulling timeoutId) as soon as the clock
reaches `ft`; this flushes any timer due at or before time `t`. -/
def fireUpTo (t : Nat) (st : Option (Nat × α)) : Option (Nat × α) × List α :=
  match st with
  | some (ft, a) => if ft ≤ t then (none, [a]) else (some (ft, a), [])
  | none => (none, [])

/-- Runs the debounced function's event loop: before each interaction at
time `t`, a timer due by `t` fires; then a call clears any pending timer and
arms a fresh one at `t + D` with the call's arguments (helpers.ts lines
14-23), and cancel() clears any pending timer (lines 25-30).  Returns the
final timer state and the invocations of the underlying function, in order. -/
def debRun (D : Nat) : Option (Nat × α) → List (DebEvent α) → Option (Nat × α) × List α
  | st, [] => (st, [])
  | st, ev :: evs =>
      let fired := fireUpTo ev.time st
      let st2 := match ev with
        | DebEvent.call t a => some (t + D, a)
        | DebEvent.cancel _ => none
      let rest := debRun D st2 evs
      (rest.1, fired.2 ++ rest.2)

/-- All invocations of the underlying function once time runs on past every
armed deadline: the run's invocations, then the pending timer's, if any. -/
def debComplete (D : Nat) (evs : List (DebEvent α)) : List α :=
  let r := debRun D none evs
  r.2 ++ (match r.1 with
    | some (_, a) => [a]
    | none => [])

/-- Call events for a list of (time, payload) pairs. -/
def mkCalls (calls : List (Nat × α)) : List (DebEvent α) :=
  calls.map fun p => DebEvent.call p.1 p.2

/-- The timed calls after a call at time `prev` each happen no earlier than
the previous one and strictly less than `D` after it. -/
def closeCalls (D : Nat) : Nat → List (Nat × α) → Prop
  | _, [] => True
  | prev, (t, _) :: rest => prev ≤ t ∧ t < prev + D ∧ closeCalls D t rest

/-- The last element of a nonempty list given as head and tail. -/
def lastD (p : Nat × α) : List (Nat × α) → Nat × α
  | [] => p
  | q :: rest => lastD q rest

/-! ## Invariants and concrete scenarios used by the theorems -/

/-- The Coordinator's live object URLs are exactly the current artifact
handle: this is the ActiveArtifact single-handle invariant's inductive form. -/
def urlInvariant (st : CoordState) : Prop :=
  st.liveUrls = st.currentPdfUrl.toList

/-- Emoji-construction bookkeeping invariant: at most one construction with
the emoji resource set has ever happened, and none before `emojiLoaded` is
set. -/
def emojiInv (st : WorkerState) : Prop :=
  emojiConstructions st ≤ 1 ∧ (st.emojiLoaded = false → emojiConstructions st = 0)

/-- An environment whose renderer always succeeds and whose upgrade
construction succeeds. -/
def envOk : RenderEnv :=
  { upgradeCtorFails := false, upgradeCtorErr := "",
    render := fun _ _ => { result := some [37], diagnostics := some [] } }

/-- An environment whose renderer rejects every source with one diagnostic. -/
def envReject : RenderEnv :=
  { upgradeCtorFails := false, upgradeCtorErr := "",
    render := fun _ _ => { result := none, diagnostics := some ["error: unterminated"] } }

/-- An environment in which the emoji-font compiler construction rejects. -/
def envUpgradeFail : RenderEnv :=
  { upgradeCtorFails := true, upgradeCtorErr := "fetch failed",
    render := fun _ _ => { result := some [1], diagnostics := some [] } }

/-- A request whose source contains U+2600, inside needsEmojiFont's ranges. -/
def emojiMsg : WorkerMsg := { id := "m1", mainTypst := [Char.ofNat 0x2600] }

/-- A request whose source is plain ASCII. -/
def plainMsg : WorkerMsg := { id := "m0", mainTypst := [Char.ofNat 65] }

/-- The worker state after one plain request: a base (CORE_FONTS) compiler. -/
def baseState : WorkerState := (handleUnit envOk plainMsg initWorker).1

/-- The worker state after one emoji request from scratch: an upgraded
compiler. -/
def upgState : WorkerState := (handleUnit envOk emojiMsg initWorker).1

/-! ## Helper lemmas -/

theorem startMany_counter : ∀ (n : Nat) (st : CoordState),
    (startMany n st).2.compileSeq = st.compileSeq + n
  | 0, st => by simp [startMany]
  | n + 1, st => by
      have ih := startMany_counter n { st with compileSeq := st.compileSeq + 1 }
      simp [startMany, startCompile] at ih ⊢
      omega

theorem startMany_seqs : ∀ (n i : Nat) (st : CoordState), i < n →
    (startMany n st).1[i]? = some (st.compileSeq + i + 1)
  | 0, i, st, h => absurd h (Nat.not_lt_zero i)
  | n + 1, 0, st, _ => by simp [startMany, startCompile]
  | n + 1, i + 1, st, h => by
      have ih := startMany_seqs n i { st with compileSeq := st.compileSeq + 1 }
        (Nat.lt_of_succ_lt_succ h)
      simp [startMany, startCompile, ih]
      omega

/-! ## C1 -/

/-- C1 (confirmed).  Highest-sequence-wins supersession: a reply whose
captured sequence number differs from the counter at reply time returns the
idle outcome, changes no state (so no artifact update) and emits no event
(no listener callback, no status transition); conversely a reply that
changes state or emits events must be current.  In a burst of n unawaited
compile() calls the i-th call captures sequence `compileSeq + i + 1` while
the counter ends at `compileSeq + n`, so every call but the last is stale at
every later reply time. -/
theorem highest_sequence_wins (st : CoordState) (seq : Nat) (r : WorkerReply)
    (n i : Nat) :
    (seq ≠ st.compileSeq →
      handleReply seq st r =
        (st, { success := false, status := CompileStatus.idle }, [])) ∧
    ((handleReply seq st r).1 ≠ st ∨ (handleReply seq st r).2.2 ≠ [] →
      seq = st.compileSeq) ∧
    (i < n → (startMany n st).1[i]? = some (st.compileSeq + i + 1)) ∧
    (startMany n st).2.compileSeq = st.compileSeq + n ∧
    (i + 1 < n →
      (startMany n st).1[i]? ≠ some ((startMany n st).2.compileSeq)) := by
  refine ⟨fun h => by simp [handleReply, h], ?_, fun h => startMany_seqs n i st h,
    startMany_counter n st, fun h => ?_⟩
  · intro hne
    by_contra hseq
    have heq : handleReply seq st r =
        (st, { success := false, status := CompileStatus.idle }, []) := by
      simp [handleReply, hseq]
    rcases hne with h1 | h2
    · exact h1 (by rw [heq])
    · exact h2 (by rw [heq])
  · rw [startMany_seqs n i st (Nat.lt_of_succ_lt h), startMany_counter n st]
    intro hc
    have := Option.some.inj hc
    omega

/-- C1 witness: a concrete stale reply is absorbed, and in a burst of three
calls from a fresh Coordinator the first call's captured sequence is 1 while
the counter ends at 3. -/
theorem highest_sequence_wins_witness :
    handleReply 5 initCoord (WorkerReply.ok [1]) =
      (initCoord, { success := false, status := CompileStatus.idle }, []) ∧
    (startMany 3 initCoord).1[0]? = some 1 ∧
    (startMany 3 initCoord).1[0]? ≠ some ((startMany 3 initCoord).2.compileSeq) :=
  ⟨(highest_sequence_wins initCoord 5 (WorkerReply.ok [1]) 3 0).1 (by decide),
   (highest_sequence_wins initCoord 5 (WorkerReply.ok [1]) 3 0).2.2.1 (by decide),
   (highest_sequence_wins initCoord 5 (WorkerReply.ok [1]) 3 0).2.2.2.2 (by decide)⟩

/-! ## C2 -/

/-- C2 (confirmed).  ActiveArtifact single-handle invariant: the live-URL
invariant (live object URLs are exactly the current handle) forces at most
one live handle, is preserved by every reply and by dispose(); on a current
successful reply the event trace revokes the previous handle strictly before
creating the new one, which is then installed as currentPdfUrl; dispose()
revokes any live handle and resets currentPdfUrl to null. -/
theorem single_artifact_handle (st : CoordState) (seq : Nat) (r : WorkerReply)
    (pdf : List Nat) (u : Nat) :
    (urlInvariant st → st.liveUrls.length ≤ 1) ∧
    (urlInvariant st → urlInvariant (handleReply seq st r).1) ∧
    (seq = st.compileSeq → st.currentPdfUrl = some u →
      ∃ rest, (handleReply seq st (WorkerReply.ok pdf)).2.2 =
        Event.revokeUrl u :: Event.createUrl st.nextUrl :: rest) ∧
    (seq = st.compileSeq →
      (handleReply seq st (WorkerReply.ok pdf)).1.currentPdfUrl =
        some st.nextUrl) ∧
    (dispose st).1.currentPdfUrl = none ∧
    (urlInvariant st → (dispose st).1.liveUrls = []) ∧
    (st.currentPdfUrl = some u → (dispose st).2 = [Event.revokeUrl u]) := by
  constructor
  · intro hinv
    rw [urlInvariant] at hinv
    rw [hinv]
    cases st.currentPdfUrl <;> simp
  constructor
  · intro hinv
    rw [urlInvariant] at hinv ⊢
    by_cases hseq : seq ≠ st.compileSeq
    · simp [handleReply, hseq, hinv]
    · cases r with
      | ok p =>
          cases hc : st.currentPdfUrl with
          | none => simp [handleReply, hseq, hinv, hc]
          | some v => simp [handleReply, hseq, hinv, hc]
      | err m => simp [handleReply, hseq, hinv]
  constructor
  · intro hseq hc
    simp [handleReply, hseq, hc]
  constructor
  · intro hseq
    cases hc : st.currentPdfUrl <;> simp [handleReply, hseq, hc]
  constructor
  · cases hc : st.currentPdfUrl <;> simp [dispose, hc]
  constructor
  · intro hinv
    rw [urlInvariant] at hinv
    cases hc : st.currentPdfUrl <;> simp [dispose, hc, hinv]
  · intro hc
    simp [dispose, hc]

/-- C2 witness: from a Coordinator holding handle 0, a current successful
reply revokes handle 0 before creating and installing handle 1, and dispose
from that state revokes and nulls the handle. -/
theorem single_artifact_handle_witness :
    (∃ rest,
      (handleReply 1
        { compileSeq := 1, currentPdfUrl := some 0, listeners := [],
          liveUrls := [0], nextUrl := 1 } (WorkerReply.ok [7])).2.2 =
        Event.revokeUrl 0 :: Event.createUrl 1 :: rest) ∧
    (dispose
      { compileSeq := 1, currentPdfUrl := some 0, listeners := [],
        liveUrls := [0], nextUrl := 1 }).1.liveUrls = [] :=
  ⟨(single_artifact_handle
      { compileSeq := 1, currentPdfUrl := some 0, listeners := [],
        liveUrls := [0], nextUrl := 1 } 1 (WorkerReply.ok [7]) [7] 0).2.2.1
      rfl rfl,
   (single_artifact_handle
      { compileSeq := 1, currentPdfUrl := some 0, listeners := [],
        liveUrls := [0], nextUrl := 1 } 1 (WorkerReply.ok [7]) [7] 0).2.2.2.2.2.1
      (by simp [urlInvariant])⟩

/-! ## C5 -/

/-- C5 (confirmed).  Failure atomicity: a current failing reply leaves the
Coordinator state exactly as it was (in particular currentPdfUrl), returns
the outcome with success false, the diagnostic message and status error,
and emits the error notification carrying that message followed by the
error status notification. -/
theorem failure_atomicity (st : CoordState) (seq : Nat) (msg : String)
    (h : seq = st.compileSeq) :
    handleReply seq st (WorkerReply.err msg) =
      (st,
       { success := false, error := some msg, status := CompileStatus.error },
       notifyError st msg ++ notifyStatusChange st CompileStatus.error) ∧
    (handleReply seq st (WorkerReply.err msg)).1.currentPdfUrl =
      st.currentPdfUrl := by
  constructor
  · simp [handleReply, h]
  · simp [handleReply, h]

/-- C5 witness: a current failing reply on a Coordinator holding handle 0
keeps the handle and reports the diagnostic to the one listener. -/
theorem failure_atomicity_witness :
    (handleReply 2
      { compileSeq := 2, currentPdfUrl := some 0, listeners := [4],
        liveUrls := [0], nextUrl := 1 } (WorkerReply.err "boom")).1.currentPdfUrl =
      some 0 :=
  (failure_atomicity
    { compileSeq := 2, currentPdfUrl := some 0, listeners := [4],
      liveUrls := [0], nextUrl := 1 } 2 "boom" rfl).2

/-! ## C7 -/

/-- C7 (confirmed, against the spec-modelled Bridge).  After dispose() the
Bridge is disposed and the listener list cleared, so every further compile()
call settles immediately with the "client disposed" failure outcome: it
performs no artifact update (currentPdfUrl stays null), emits no callback at
all, is not retried (runCompile makes a single Bridge invocation), and does
not proceed as a normal compile attempt regardless of what the worker would
have replied. -/
theorem compile_after_dispose_fails_fast (b : BridgeState) (st : CoordState)
    (r : WorkerReply) :
    (runCompile (disposeAll b st).1 (disposeAll b st).2.1 r).2.1 =
      { success := false, error := some "client disposed",
        status := CompileStatus.error } ∧
    (runCompile (disposeAll b st).1 (disposeAll b st).2.1 r).2.2 = [] ∧
    (runCompile (disposeAll b st).1 (disposeAll b st).2.1 r).1.currentPdfUrl =
      none := by
  cases hc : st.currentPdfUrl <;>
    simp [disposeAll, dispose, runCompile, startCompile, bridgeInvoke,
      handleReply, notifyError, notifyStatusChange, hc]

/-! ## C9 -/

theorem unsubscribe_cons_ne (l x : Nat) (xs : List Nat) (hx : x ≠ l) :
    unsubscribe l (x :: xs) = x :: unsubscribe l xs := by
  rw [unsubscribe, unsubscribe, indexOf]
  cases h : indexOf l xs <;> simp [hx, h]

theorem unsubscribe_eq_erase (l : Nat) : ∀ ls : List Nat,
    unsubscribe l ls = ls.erase l
  | [] => rfl
  | x :: xs => by
      by_cases hx : x = l
      · subst hx
        simp [unsubscribe, indexOf]
      · rw [unsubscribe_cons_ne l x xs hx, unsubscribe_eq_erase l xs,
          List.erase_cons]
        simp [hx]

theorem handleReply_target_mem (seq : Nat) (st : CoordState) (r : WorkerReply) :
    ∀ e ∈ (handleReply seq st r).2.2, ∀ t, Event.target? e = some t →
      t ∈ st.listeners := by
  intro e he t ht
  by_cases hseq : seq ≠ st.compileSeq
  · simp [handleReply, hseq] at he
  · rw [not_ne_iff] at hseq
    cases r with
    | ok pdf =>
        cases hc : st.currentPdfUrl with
        | none =>
            simp [handleReply, hseq, hc, notifySuccess, notifyStatusChange,
              List.mem_append, List.mem_map] at he
            rcases he with rfl | ⟨x, hx, rfl⟩ | ⟨x, hx, rfl⟩
            · simp [Event.target?] at ht
            · simp [Event.target?] at ht
              rwa [← ht]
            · simp [Event.target?] at ht
              rwa [← ht]
        | some v =>
            simp [handleReply, hseq, hc, notifySuccess, notifyStatusChange,
              List.mem_append, List.mem_map] at he
            rcases he with rfl | rfl | ⟨x, hx, rfl⟩ | ⟨x, hx, rfl⟩
            · simp [Event.target?] at ht
            · simp [Event.target?] at ht
            · simp [Event.target?] at ht
              rwa [← ht]
            · simp [Event.target?] at ht
              rwa [← ht]
    | err m =>
        simp [handleReply, hseq, notifyError, notifyStatusChange,
          List.mem_append, List.mem_map] at he
        rcases he with ⟨x, hx, rfl⟩ | ⟨x, hx, rfl⟩ <;>
          · simp [Event.target?] at ht
            rwa [← ht]

theorem runCompile_target_mem (b : BridgeState) (st : CoordState)
    (r : WorkerReply) :
    ∀ e ∈ (runCompile b st r).2.2, ∀ t, Event.target? e = some t →
      t ∈ st.listeners := by
  intro e he t ht
  simp only [runCompile, startCompile, notifyStatusChange, List.mem_append] at he
  rcases he with h1 | h2
  · obtain ⟨x, hx, rfl⟩ := List.mem_map.mp h1
    simp [Event.target?] at ht
    rw [← ht]
    exact hx
  · exact handleReply_target_mem _ _ _ e h2 t ht

/-- C9 counterexample: the claim extends idempotence of the unsubscribe
token to the case where the same observer object was registered more than
once, but with observer 0 registered twice, invoking the token a second time
removes the second registration as well — the second invocation is not a
no-op. -/
theorem unsubscribe_token_not_idempotent :
    unsubscribe 0 (unsubscribe 0 (addListener 0 (addListener 0 []))) ≠
      unsubscribe 0 (addListener 0 (addListener 0 [])) := by
  decide

/-- C9 (corrected).  Unsubscribe semantics: the token removes exactly the
first registration of that observer (it equals List.erase); invoking it when
the observer is not registered is a no-op; provided the observer is
registered at most once, a second invocation is an idempotent no-op, the
observer is gone from the listener list, and a subsequent compile() delivers
zero callbacks to it. -/
theorem unsubscribe_removes_observer (l : Nat) (ls : List Nat)
    (st : CoordState) (r : WorkerReply) (b : BridgeState)
    (hcount : ls.count l ≤ 1) (hst : st.listeners = unsubscribe l ls) :
    unsubscribe l ls = ls.erase l ∧
    (l ∉ ls → unsubscribe l ls = ls) ∧
    unsubscribe l (unsubscribe l ls) = unsubscribe l ls ∧
    l ∉ unsubscribe l ls ∧
    (∀ e ∈ (runCompile b st r).2.2, Event.target? e ≠ some l) := by
  have herase := unsubscribe_eq_erase l ls
  have hnotmem : l ∉ unsubscribe l ls := by
    rw [herase]
    intro hmem
    have hcnt := List.count_erase_self l ls
    have hpos := List.count_pos_iff.mpr hmem
    omega
  refine ⟨herase, ?_, ?_, hnotmem, ?_⟩
  · intro hnm
    rw [herase, List.erase_of_not_mem hnm]
  · rw [unsubscribe_eq_erase l (unsubscribe l ls),
      List.erase_of_not_mem hnotmem]
  · intro e he hl
    exact hnotmem (hst ▸ runCompile_target_mem b st r e he l hl)

/-- C9 witness: with observer 0 registered once (among [0, 1]) and then
unsubscribed, observer 0 is no longer in the listener list and a concrete
compile delivers it no callback. -/
theorem unsubscribe_removes_observer_witness :
    (0 : Nat) ∉ unsubscribe 0 [0, 1] ∧
    unsubscribe 0 (unsubscribe 0 [0, 1]) = unsubscribe 0 [0, 1] :=
  ⟨(unsubscribe_removes_observer 0 [0, 1]
      { compileSeq := 0, currentPdfUrl := none,
        listeners := unsubscribe 0 [0, 1], liveUrls := [], nextUrl := 0 }
      (WorkerReply.ok []) { disposed := false } (by decide) rfl).2.2.2.1,
   (unsubscribe_removes_observer 0 [0, 1]
      { compileSeq := 0, currentPdfUrl := none,
        listeners := unsubscribe 0 [0, 1], liveUrls := [], nextUrl := 0 }
      (WorkerReply.ok []) { disposed := false } (by decide) rfl).2.2.1⟩

/-! ## C3 -/

theorem handleUnit_fst (env : RenderEnv) (m : WorkerMsg) (st : WorkerState) :
    (handleUnit env m st).1 = (compilePdf env m.mainTypst st).1 := by
  rw [handleUnit]
  rcases h : compilePdf env m.mainTypst st with ⟨st1, res⟩
  cases res <;> simp

theorem handleUnit_id (env : RenderEnv) (m : WorkerMsg) (st : WorkerState) :
    (handleUnit env m st).2.id = m.id := by
  rw [handleUnit]
  rcases h : compilePdf env m.mainTypst st with ⟨st1, res⟩
  cases res <;> simp

theorem compilePdf_state_cases (env : RenderEnv) (src : List Char)
    (st : WorkerState) :
    (compilePdf env src st).1 = (getCompiler st).1 ∨
    (compilePdf env src st).1 =
      (upgradeCompilerWithEmoji env.upgradeCtorFails st).1 ∨
    (compilePdf env src st).1 =
      (getCompiler (upgradeCompilerWithEmoji env.upgradeCtorFails st).1).1 := by
  rw [compilePdf]
  by_cases hne : needsEmojiFont src = true
  · simp only [hne, if_true]
    by_cases hu : (upgradeCompilerWithEmoji env.upgradeCtorFails st).2 = false
    · simp [hu]
    · simp [hu]
  · simp only [hne, if_false]
    simp

@[simp]
theorem count_emoji_append_core (l : List FontSet) :
    List.count FontSet.coreAndEmoji (l ++ [FontSet.core]) =
      List.count FontSet.coreAndEmoji l := by
  simp [List.count_append]

@[simp]
theorem count_emoji_append_emoji (l : List FontSet) :
    List.count FontSet.coreAndEmoji (l ++ [FontSet.coreAndEmoji]) =
      List.count FontSet.coreAndEmoji l + 1 := by
  simp [List.count_append]

theorem getCompiler_emojiInv (st : WorkerState) (h : emojiInv st) :
    emojiInv (getCompiler st).1 := by
  obtain ⟨h1, h2⟩ := h
  rw [emojiInv, emojiConstructions] at *
  rcases hc : st.compilerPromise with _ | c
  · simp [getCompiler, hc]
    exact ⟨h1, h2⟩
  · simp [getCompiler, hc]
    exact ⟨h1, h2⟩

theorem upgrade_emojiInv (f : Bool) (st : WorkerState) (h : emojiInv st) :
    emojiInv (upgradeCompilerWithEmoji f st).1 := by
  obtain ⟨h1, h2⟩ := h
  rw [upgradeCompilerWithEmoji]
  by_cases hel : st.emojiLoaded = true
  · simp [hel]
    exact ⟨h1, h2⟩
  · have h0 : emojiConstructions st = 0 := h2 (by simpa using hel)
    rw [emojiConstructions] at h0
    by_cases hf : f = true <;>
      simp [hel, hf, emojiInv, emojiConstructions, getCurrentFonts, h0]

theorem getCompiler_rank (st : WorkerState) :
    rankR (rendererState st) ≤ rankR (rendererState (getCompiler st).1) := by
  rcases hc : st.compilerPromise with _ | c
  · simp [getCompiler, hc, rendererState, rankR]
  · simp [getCompiler, hc]

theorem upgrade_rank (f : Bool) (st : WorkerState) :
    rankR (rendererState st) ≤
      rankR (rendererState (upgradeCompilerWithEmoji f st).1) := by
  rw [upgradeCompilerWithEmoji]
  by_cases hel : st.emojiLoaded = true
  · simp [hel]
  · by_cases hf : f = true <;> simp [hel, hf, getCurrentFonts, rendererState]
    rcases hc : st.compilerPromise with _ | c
    · simp [rankR]
    · cases c <;> simp [rankR]

theorem codeStepR_iff_rank (s t : RState) :
    codeStepR s t ↔ rankR s ≤ rankR t := by
  cases s <;> cases t <;> simp [codeStepR, specStepR, rankR]

theorem handleUnit_emojiInv (env : RenderEnv) (m : WorkerMsg) (st : WorkerState)
    (h : emojiInv st) : emojiInv (handleUnit env m st).1 := by
  have hf := handleUnit_fst env m st
  rcases compilePdf_state_cases env m.mainTypst st with hc | hc | hc <;>
    rw [hf, hc]
  · exact getCompiler_emojiInv st h
  · exact upgrade_emojiInv _ st h
  · exact getCompiler_emojiInv _ (upgrade_emojiInv _ st h)

theorem processQueue_emojiInv (units : List (WorkerMsg × RenderEnv)) :
    ∀ st : WorkerState, emojiInv st → emojiInv (processQueue st units).1 := by
  induction units with
  | nil => intro st h; simpa [processQueue] using h
  | cons u rest ih =>
      intro st h
      rcases u with ⟨m, env⟩
      simp only [processQueue]
      exact ih _ (handleUnit_emojiInv env m st h)

/-- C3 counterexample: a first request that already needs emoji fonts moves
the renderer state from uninitialized directly to upgraded — the transition
is in neither of the claimed steps (uninitialized to base, base to upgraded),
and base is never visited. -/
theorem renderer_state_skips_base :
    rendererState initWorker = RState.uninit ∧
    rendererState (handleUnit envOk emojiMsg initWorker).1 = RState.upgraded ∧
    ¬ specStepR (rendererState initWorker)
        (rendererState (handleUnit envOk emojiMsg initWorker).1) := by
  refine ⟨rfl, rfl, ?_⟩
  rw [specStepR]
  decide

/-- C3 (corrected).  Renderer lifecycle: every compilation unit moves the
renderer state along uninitialized to base to upgraded or — when the first
request already needs extended coverage — uninitialized directly to
upgraded, and never backwards; the first construction is memoized
(getCompiler on an installed compilerPromise returns it with no new
construction); over any whole worker lifetime at most one construction with
the emoji resource set happens; and once the upgraded compiler is installed,
every request is rendered with it (even requests not needing the extra
coverage). -/
theorem renderer_lifecycle (env : RenderEnv) (m : WorkerMsg) (st : WorkerState)
    (units : List (WorkerMsg × RenderEnv)) :
    codeStepR (rendererState st) (rendererState (handleUnit env m st).1) ∧
    (∀ c, st.compilerPromise = some c → getCompiler st = (st, c)) ∧
    emojiConstructions (processQueue initWorker units).1 ≤ 1 ∧
    (st.compilerPromise = some FontSet.coreAndEmoji → st.emojiLoaded = true →
      compilePdf env m.mainTypst st =
        (st, finishRender (env.render FontSet.coreAndEmoji m.mainTypst))) := by
  refine ⟨?_, ?_, ?_, ?_⟩
  · rw [codeStepR_iff_rank, handleUnit_fst env m st]
    rcases compilePdf_state_cases env m.mainTypst st with hc | hc | hc <;>
      rw [hc]
    · exact getCompiler_rank st
    · exact upgrade_rank _ st
    · exact Nat.le_trans (upgrade_rank _ st) (getCompiler_rank _)
  · intro c hc
    rw [getCompiler, hc]
  · exact (processQueue_emojiInv units initWorker (by constructor <;> simp
      [emojiInv, emojiConstructions, initWorker])).1
  · intro hcp hel
    rw [compilePdf]
    by_cases hne : needsEmojiFont m.mainTypst = true
    · rw [if_pos hne, upgradeCompilerWithEmoji, if_pos hel]
      simp [getCompiler, hcp]
    · rw [if_neg hne]
      simp [getCompiler, hcp]

/-- C3 witness: in the upgraded state reached by one emoji request,
getCompiler returns the installed upgraded compiler without constructing,
and a plain follow-up request is rendered with the upgraded compiler. -/
theorem renderer_lifecycle_witness :
    getCompiler upgState = (upgState, FontSet.coreAndEmoji) ∧
    compilePdf envOk plainMsg.mainTypst upgState =
      (upgState, finishRender (envOk.render FontSet.coreAndEmoji plainMsg.mainTypst)) :=
  ⟨(renderer_lifecycle envOk plainMsg upgState []).2.1 FontSet.coreAndEmoji
      (by decide),
   (renderer_lifecycle envOk plainMsg upgState []).2.2.2 (by decide) (by decide)⟩

/-! ## C10 -/

/-- C10 (confirmed).  When the base-to-upgraded reconstruction fails (the
new compiler's construction rejects), emojiLoaded was already set before the
await, so it stays true while compilerPromise keeps the base compiler: the
failing request's reply is not ok, and every subsequent request — whatever
its environment and whether or not it contains extended-coverage
characters — changes no worker state (the upgrade is never retried, nothing
is reconstructed) and is rendered with the previously constructed base
(CORE_FONTS) compiler. -/
theorem failed_upgrade_never_retried (env env2 : RenderEnv) (m m2 : WorkerMsg)
    (st : WorkerState)
    (hp : st.compilerPromise = some FontSet.core)
    (he : st.emojiLoaded = false)
    (hf : env.upgradeCtorFails = true)
    (hm : needsEmojiFont m.mainTypst = true) :
    (handleUnit env m st).1.emojiLoaded = true ∧
    (handleUnit env m st).1.compilerPromise = some FontSet.core ∧
    (handleUnit env m st).2.ok = false ∧
    (handleUnit env2 m2 (handleUnit env m st).1).1 = (handleUnit env m st).1 ∧
    compilePdf env2 m2.mainTypst (handleUnit env m st).1 =
      ((handleUnit env m st).1,
       finishRender (env2.render FontSet.core m2.mainTypst)) := by
  have hstep : handleUnit env m st =
      ({ st with
          emojiLoaded := true
          constructions := st.constructions ++ [FontSet.coreAndEmoji] },
       { id := m.id, ok := false, pdf := none,
         error := some env.upgradeCtorErr, diagnostics := [] }) := by
    rw [handleUnit, compilePdf, upgradeCompilerWithEmoji]
    simp [hm, he, hf, getCurrentFonts]
  have hnext : ∀ (e2 : RenderEnv) (src : List Char),
      compilePdf e2 src
        ({ st with
            emojiLoaded := true
            constructions := st.constructions ++ [FontSet.coreAndEmoji] }) =
        (({ st with
            emojiLoaded := true
            constructions := st.constructions ++ [FontSet.coreAndEmoji] } : WorkerState),
         finishRender (e2.render FontSet.core src)) := by
    intro e2 src
    rw [compilePdf, upgradeCompilerWithEmoji]
    by_cases hn : needsEmojiFont src = true <;>
      simp [hn, getCompiler, hp]
  refine ⟨?_, ?_, ?_, ?_, ?_⟩
  · rw [hstep]
  · rw [hstep]
    exact hp
  · rw [hstep]
  · rw [hstep, handleUnit_fst, hnext]
  · rw [hstep, hnext]

/-- C10 witness: from the concrete base state with a failing upgrade on an
emoji request, the upgrade flag sticks, the base compiler survives, and the
next emoji request is rendered with the base compiler and changes nothing. -/
theorem failed_upgrade_never_retried_witness :
    (handleUnit envUpgradeFail emojiMsg baseState).1.compilerPromise =
      some FontSet.core ∧
    (handleUnit envOk emojiMsg
        (handleUnit envUpgradeFail emojiMsg baseState).1).1 =
      (handleUnit envUpgradeFail emojiMsg baseState).1 :=
  ⟨(failed_upgrade_never_retried envUpgradeFail envOk emojiMsg emojiMsg
      baseState (by decide) (by decide) (by decide) (by decide)).2.1,
   (failed_upgrade_never_retried envUpgradeFail envOk emojiMsg emojiMsg
      baseState (by decide) (by decide) (by decide) (by decide)).2.2.2.1⟩

/-! ## C6 -/

/-- C6 counterexample: a concrete request the renderer rejects with one
diagnostic.  The worker's posted reply has ok false and no artifact, but its
diagnostics field is the EMPTY sequence — the diagnostics reach the
Coordinator only joined inside the error message — refuting the claim that
the reply carries a non-empty diagnostics sequence. -/
theorem malformed_reply_empty_diagnostics :
    (handleUnit envReject plainMsg initWorker).2.ok = false ∧
    (handleUnit envReject plainMsg initWorker).2.pdf = none ∧
    (handleUnit envReject plainMsg initWorker).2.error =
      some "error: unterminated" ∧
    (handleUnit envReject plainMsg initWorker).2.diagnostics = [] := by
  decide

/-- C6 (corrected).  Malformed-source reply shape: when the renderer rejects
the source (produces no artifact) and the upgrade construction does not
fail, the worker's reply has ok false, carries no artifact bytes, its
failure message is the renderer's diagnostics joined by newlines (or the
fixed fallback text when that join is empty), and its diagnostics field is
the empty sequence. -/
theorem renderer_rejection_reply (env : RenderEnv) (m : WorkerMsg)
    (st : WorkerState) (ds : List String)
    (henv : env.upgradeCtorFails = false)
    (hr : ∀ c src, env.render c src =
      { result := none, diagnostics := some ds }) :
    (handleUnit env m st).2 =
      { id := m.id, ok := false, pdf := none,
        error := some (if String.intercalate "\n" ds = "" then fallbackMsg
          else String.intercalate "\n" ds),
        diagnostics := [] } := by
  have hres : (compilePdf env m.mainTypst st).2 =
      Except.error (if String.intercalate "\n" ds = "" then fallbackMsg
        else String.intercalate "\n" ds) := by
    rw [compilePdf]
    by_cases hne : needsEmojiFont m.mainTypst = true
    · rw [if_pos hne, upgradeCompilerWithEmoji]
      by_cases hel : st.emojiLoaded = true
      · rw [if_pos hel]
        rcases hcp : st.compilerPromise with _ | c <;>
          simp [getCompiler, hcp, hr, finishRender]
      · rw [if_neg hel]
        simp [henv, getCurrentFonts, getCompiler, hr, finishRender]
    · rw [if_neg hne]
      rcases hcp : st.compilerPromise with _ | c <;>
        simp [getCompiler, hcp, hr, finishRender]
  rw [handleUnit]
  rcases hc2 : compilePdf env m.mainTypst st with ⟨st1, res⟩
  rw [hc2] at hres
  simp at hres
  rw [hres]

/-- C6 witness: the amended reply shape at the concrete rejected request. -/
theorem renderer_rejection_reply_witness :
    (handleUnit envReject plainMsg initWorker).2 =
      { id := plainMsg.id, ok := false, pdf := none,
        error := some (if String.intercalate "\n" ["error: unterminated"] = ""
          then fallbackMsg
          else String.intercalate "\n" ["error: unterminated"]),
        diagnostics := [] } :=
  renderer_rejection_reply envReject plainMsg initWorker
    ["error: unterminated"] rfl (fun _ _ => rfl)

/-! ## C4 -/

theorem processQueue_ids : ∀ (st : WorkerState)
    (units : List (WorkerMsg × RenderEnv)),
    ((processQueue st units).2).map (fun r => r.id) =
      units.map (fun u => u.1.id)
  | _, [] => rfl
  | st, (m, env) :: rest => by
      have ih := processQueue_ids (handleUnit env m st).1 rest
      simp [processQueue, ih, handleUnit_id]

/-- C4 (confirmed).  Strict FIFO serialization: processQueue is the
embedding of the worker's promise chain `compileQueue =
compileQueue.then(unit)` — units run strictly one after another in arrival
order by construction, and because each unit is total (its try/catch posts a
reply on success and on failure alike), every message gets exactly one
reply, the replies carry the ids of the messages in submission order, and a
render failure in any unit (any environment, including rejecting renderers)
does not prevent any later queued unit from being processed. -/
theorem worker_queue_fifo (st : WorkerState)
    (units : List (WorkerMsg × RenderEnv)) :
    ((processQueue st units).2).map (fun r => r.id) =
      units.map (fun u => u.1.id) ∧
    ((processQueue st units).2).length = units.length := by
  refine ⟨processQueue_ids st units, ?_⟩
  have := congrArg List.length (processQueue_ids st units)
  simpa using this

/-! ## C8 -/

theorem debRun_armed (D : Nat) : ∀ (rest : List (Nat × α)) (t : Nat) (a : α),
    closeCalls D t rest →
    debRun D (some (t + D, a)) (mkCalls rest) =
      (some ((lastD (t, a) rest).1 + D, (lastD (t, a) rest).2), [])
  | [], t, a, _ => by simp [debRun, mkCalls, lastD]
  | (t2, a2) :: rest, t, a, h => by
      obtain ⟨h1, h2, h3⟩ := h
      have ih := debRun_armed D rest t2 a2 h3
      have hlt : ¬ (t + D ≤ t2) := Nat.not_le.mpr h2
      simp only [mkCalls, List.map_cons] at ih ⊢
      simp [debRun, DebEvent.time, fireUpTo, hlt, lastD, ih]

theorem debRun_append (D : Nat) : ∀ (xs : List (DebEvent α))
    (st : Option (Nat × α)) (ys : List (DebEvent α)),
    debRun D st (xs ++ ys) =
      ((debRun D (debRun D st xs).1 ys).1,
       (debRun D st xs).2 ++ (debRun D (debRun D st xs).1 ys).2)
  | [], st, ys => by simp [debRun]
  | ev :: xs, st, ys => by
      cases ev with
      | call t a =>
          have ih := debRun_append D xs (some (t + D, a)) ys
          simp [debRun, DebEvent.time, ih, List.append_assoc]
      | cancel t =>
          have ih := debRun_append D xs none ys
          simp [debRun, DebEvent.time, ih, List.append_assoc]

/-- C8 (confirmed).  Coalescer contract: for N >= 1 calls each made less
than delay D after the previous, exactly one underlying invocation occurs,
carrying the payload of the last call; no invocation fires while the calls
are being made (in particular none synchronously during a call — each call
only re-arms the timer); and appending a cancel() before the armed deadline
disarms the timer so no invocation ever occurs. -/
theorem debounce_last_call_wins (D t : Nat) (a : α) (rest : List (Nat × α))
    (tc : Nat) (h : closeCalls D t rest)
    (htc : tc < (lastD (t, a) rest).1 + D) :
    debComplete D (mkCalls ((t, a) :: rest)) = [(lastD (t, a) rest).2] ∧
    (debRun D none (mkCalls ((t, a) :: rest))).2 = [] ∧
    debComplete D (mkCalls ((t, a) :: rest) ++ [DebEvent.cancel tc]) = [] := by
  have harm := debRun_armed D rest t a h
  have hrun : debRun D none (mkCalls ((t, a) :: rest)) =
      (some ((lastD (t, a) rest).1 + D, (lastD (t, a) rest).2), []) := by
    simp only [mkCalls, List.map_cons] at harm ⊢
    simp [debRun, DebEvent.time, fireUpTo, harm]
  refine ⟨?_, ?_, ?_⟩
  · rw [debComplete, hrun]
    simp
  · rw [hrun]
  · rw [debComplete, debRun_append D (mkCalls ((t, a) :: rest)) none
      [DebEvent.cancel tc], hrun]
    simp [debRun, fireUpTo, DebEvent.time, Nat.not_le.mpr htc]

/-- C8 witness: three calls at times 0, 3, 5 with delay 10 produce exactly
one invocation carrying the last payload, and a cancel at time 14 (before
the armed deadline 15) suppresses it. -/
theorem debounce_last_call_wins_witness :
    debComplete 10 (mkCalls [((0 : Nat), (1 : Nat)), (3, 2), (5, 3)]) = [3] ∧
    debComplete 10
      (mkCalls [((0 : Nat), (1 : Nat)), (3, 2), (5, 3)] ++
        [DebEvent.cancel 14]) = [] := by
  have h := debounce_last_call_wins 10 0 1 [(3, 2), (5, 3)] 14
    (by norm_num [closeCalls]) (by norm_num [lastD])
  exact ⟨h.1, h.2.2⟩

end TypstEditor
